import Mathlib

/-
Verification of the data-source abstraction layer of `DatasourceUtil.java`
(dolphinscheduler-datasource-api): the engine-kind dispatcher, the MySQL
table introspector `getMySqlTables`, and the resource-release helper `close`.

External JDBC behaviour (connection provider, metadata cursor, the outcome of
each `close()` call) is modelled by an explicit oracle `JdbcWorld`; the
functions return both their Java result (`Except` for thrown exceptions) and a
trace of the observable calls they made, so that release-ordering and
release-counting properties can be stated.
-/

namespace DatasourceUtil

/-- `SQLException` payloads are modelled by their message. -/
abbrev SqlError := String

/-- Modelled from the spec: the `DbType` enum
(`org.apache.dolphinscheduler.spi.enums.DbType`) is not among the sources; the
spec fixes a closed supported set of engine kinds and requires the dispatcher
to reject any kind outside that set, so the model carries an explicit
out-of-set representative `OTHER`. -/
inductive DbType
  | MYSQL
  | POSTGRESQL
  | HIVE
  | SPARK
  | CLICKHOUSE
  | ORACLE
  | SQLSERVER
  | DB2
  | PRESTO
  | OTHER (tag : String)
deriving DecidableEq, Repr

/-- Engine-kind display name (the Java enum constant name), used in the
dispatcher's diagnostic message. -/
def dbTypeName : DbType → String
  | .MYSQL => "MYSQL"
  | .POSTGRESQL => "POSTGRESQL"
  | .HIVE => "HIVE"
  | .SPARK => "SPARK"
  | .CLICKHOUSE => "CLICKHOUSE"
  | .ORACLE => "ORACLE"
  | .SQLSERVER => "SQLSERVER"
  | .DB2 => "DB2"
  | .PRESTO => "PRESTO"
  | .OTHER tag => tag

/-- Whether a kind belongs to the closed supported set handled by the switch in
`getDatasourceProcessor`. -/
def isSupported : DbType → Bool
  | .OTHER _ => false
  | _ => true

/-- The per-engine processor classes (`MysqlDatasourceProcessor`, ...) are not
among the sources; each is a stateless singleton, so the model enumerates the
nine singleton instances. -/
inductive DatasourceProcessor
  | mysqlDatasourceProcessor
  | postgreSqlDatasourceProcessor
  | hiveDatasourceProcessor
  | sparkDatasourceProcessor
  | clickHouseDatasourceProcessor
  | oracleDatasourceProcessor
  | sqlServerDatasourceProcessor
  | db2DatasourceProcessor
  | prestoDatasourceProcessor
deriving DecidableEq, Repr

/-- static final field `mysqlProcessor` of `DatasourceUtil`. -/
def mysqlProcessor : DatasourceProcessor := .mysqlDatasourceProcessor

/-- static final field `postgreSqlProcessor`. -/
def postgreSqlProcessor : DatasourceProcessor := .postgreSqlDatasourceProcessor

/-- static final field `hiveProcessor`. -/
def hiveProcessor : DatasourceProcessor := .hiveDatasourceProcessor

/-- static final field `sparkProcessor`. -/
def sparkProcessor : DatasourceProcessor := .sparkDatasourceProcessor

/-- static final field `clickhouseProcessor`. -/
def clickhouseProcessor : DatasourceProcessor := .clickHouseDatasourceProcessor

/-- static final field `oracleProcessor`. -/
def oracleProcessor : DatasourceProcessor := .oracleDatasourceProcessor

/-- static final field `sqlServerProcessor`. -/
def sqlServerProcessor : DatasourceProcessor := .sqlServerDatasourceProcessor

/-- static final field `db2PROCESSOR`. -/
def db2PROCESSOR : DatasourceProcessor := .db2DatasourceProcessor

/-- static final field `prestoPROCESSOR`. -/
def prestoPROCESSOR : DatasourceProcessor := .prestoDatasourceProcessor

/-- `DatasourceUtil.getDatasourceProcessor`: the switch over `DbType`; the
`default` arm throws `IllegalArgumentException("datasource type illegal:" + dbType)`,
modelled as `Except.error`. -/
def getDatasourceProcessor : DbType → Except String DatasourceProcessor
  | .MYSQL => .ok mysqlProcessor
  | .POSTGRESQL => .ok postgreSqlProcessor
  | .HIVE => .ok hiveProcessor
  | .SPARK => .ok sparkProcessor
  | .CLICKHOUSE => .ok clickhouseProcessor
  | .ORACLE => .ok oracleProcessor
  | .SQLSERVER => .ok sqlServerProcessor
  | .DB2 => .ok db2PROCESSOR
  | .PRESTO => .ok prestoPROCESSOR
  | .OTHER tag => .error ("datasource type illegal:" ++ tag)

/-- A JDBC resource handle as seen by a release call: the only observable
behaviour is whether its `close()` returns normally or throws an
`SQLException` (with the given message). -/
structure ResourceHandle where
  closeOutcome : Option SqlError
deriving DecidableEq, Repr

/-- `MysqlConnectionParam` as populated by `getMySqlTables` via
`setJdbcUrl` / `setUser` / `setPassword`; Java reference fields are nullable,
hence `Option`. -/
structure MysqlConnectionParam where
  jdbcUrl : Option String := none
  user : Option String := none
  password : Option String := none
deriving DecidableEq, Repr

/-- Observable calls made by the introspector: connection acquisition from
`DataSourceClientProvider`, the `DatabaseMetaData.getTables` query, the three
release hooks, and the diagnostic recorded (`printStackTrace`) when a release
call throws. -/
inductive Event
  | acquireConn (dbType : DbType) (param : MysqlConnectionParam)
  | metaQuery (catalog : String) (schemaPattern : String)
      (tableNamePattern : Option String) (types : List String)
  | closeCursor
  | closeStmt
  | closeConn
  | releaseDiag (e : SqlError)
deriving DecidableEq, Repr

/-- The underlying JDBC `close()` call on a handle: returns or throws. -/
def jclose (h : ResourceHandle) : Except SqlError Unit :=
  match h.closeOutcome with
  | none => Except.ok ()
  | some e => Except.error e

/-- One guarded block of `DatasourceUtil.close`:
`if (x != null) { try { x.close(); } catch (SQLException e) { e.printStackTrace(); } }`.
The returned events record the release invocation and, when the close call
threw, the diagnostic. -/
def closeStep (ev : Event) (h : Option ResourceHandle) : Except SqlError (List Event) :=
  match h with
  | none => Except.ok []
  | some hd =>
    Except.tryCatch
      ((jclose hd).map (fun _ => [ev]))
      (fun e => Except.ok [ev, Event.releaseDiag e])

/-- `DatasourceUtil.close(Connection conn, Statement stmt, ResultSet rs)`:
releases the cursor, then the statement, then the connection, each inside its
own null-check and try/catch. Sequencing through `Except.bind` keeps the
possibility of an escaping exception representable in the type; the theorems
establish that no exception ever escapes. -/
def close (conn stmt rs : Option ResourceHandle) : Except SqlError (List Event) :=
  (closeStep Event.closeCursor rs).bind (fun e1 =>
    (closeStep Event.closeStmt stmt).bind (fun e2 =>
      (closeStep Event.closeConn conn).bind (fun e3 =>
        Except.ok (e1 ++ e2 ++ e3))))

/-- Model of `java.util.regex` patterns at the level `Pattern.matches` uses
them: a standard regular-expression abstract syntax. -/
inductive Regex
  | emp
  | eps
  | char (c : Char)
  | anyChar
  | concat (r1 r2 : Regex)
  | alt (r1 r2 : Regex)
  | star (r : Regex)
deriving DecidableEq, Repr

/-- Whether a regex accepts the empty string. -/
def nullable : Regex → Bool
  | .emp => false
  | .eps => true
  | .char _ => false
  | .anyChar => false
  | .concat r1 r2 => nullable r1 && nullable r2
  | .alt r1 r2 => nullable r1 || nullable r2
  | .star _ => true

/-- Brzozowski derivative of a regex by one character. -/
def deriv : Regex → Char → Regex
  | .emp, _ => .emp
  | .eps, _ => .emp
  | .char a, c => if a = c then .eps else .emp
  | .anyChar, _ => .eps
  | .concat r1 r2, c =>
    if nullable r1 then .alt (.concat (deriv r1 c) r2) (deriv r2 c)
    else .concat (deriv r1 c) r2
  | .alt r1 r2, c => .alt (deriv r1 c) (deriv r2 c)
  | .star r, c => .concat (deriv r c) (.star r)

/-- Derivative-based acceptance of a whole character list. -/
def matchesChars : Regex → List Char → Bool
  | r, [] => nullable r
  | r, c :: cs => matchesChars (deriv r c) cs

/-- Model of `Pattern.matches(pattern, input)`: the WHOLE input must match the
pattern (full match, not substring search). -/
def fullMatch (r : Regex) (s : String) : Bool :=
  matchesChars r s.data

/-- Model of Java `String.toUpperCase()`: character-wise upper-casing. -/
def toUpperCase (s : String) : String :=
  String.mk (s.data.map Char.toUpper)

/-- The `while (rs.next())` accumulation loop of `getMySqlTables`: each yielded
`TABLE_NAME` is kept exactly when `Pattern.matches(tablePattern, name)`. -/
def scanLoop (tablePattern : Regex) : List String → List String
  | [] => []
  | name :: rest =>
    if fullMatch tablePattern name then name :: scanLoop tablePattern rest
    else scanLoop tablePattern rest

/-- Exceptions a `getMySqlTables` call can raise: an `SQLException` (connect,
metadata, query, scan, or an escaping release error) or a
`NullPointerException`. -/
inductive JavaError
  | sql (e : SqlError)
  | npe
deriving DecidableEq, Repr

/-- Oracle for the external JDBC behaviour of one `getMySqlTables` call: the
outcome of `getConnection`, `getMetaData` and `getTables`, the rows the cursor
yields, whether `rs.next()` throws after those rows (`scanTerminal`), and the
outcome of the two `close()` calls. -/
structure JdbcWorld where
  connect : Except SqlError Unit
  metaData : Except SqlError Unit
  tablesQuery : Except SqlError Unit
  rows : List String
  scanTerminal : Option SqlError
  cursorCloseFails : Option SqlError
  connCloseFails : Option SqlError

/-- The `finally { close(conn, null, rs); }` step: runs the release helper and
then lets the primary outcome (value or raised error) continue — unless the
helper itself threw, in which case Java semantics would replace the primary
outcome (the theorems establish this branch is unreachable). -/
def finallyClose (primary : Except JavaError (List String))
    (conn stmt rs : Option ResourceHandle) (evs : List Event) :
    Except JavaError (List String) × List Event :=
  match close conn stmt rs with
  | Except.ok closeEvs => (primary, evs ++ closeEvs)
  | Except.error e => (Except.error (JavaError.sql e), evs)

/-- `DatasourceUtil.getMySqlTables(url, database, tablePattern, user, password)`:
builds a `MysqlConnectionParam`, acquires a connection for `DbType.MYSQL`,
queries `getTables(database, user.toUpperCase(), null, {"TABLE"})`, filters the
yielded names through `Pattern.matches`, and releases via
`close(conn, null, rs)` in a `finally` block. The result is the Java outcome
paired with the trace of observable calls. -/
def getMySqlTables (url database : String) (tablePattern : Regex)
    (user : Option String) (password : String) (w : JdbcWorld) :
    Except JavaError (List String) × List Event :=
  let connectionParam : MysqlConnectionParam :=
    { jdbcUrl := some url, user := user, password := some password }
  let evAcquire := [Event.acquireConn DbType.MYSQL connectionParam]
  match w.connect with
  | Except.error e => (Except.error (JavaError.sql e), evAcquire)
  | Except.ok _ =>
    let conn : ResourceHandle := { closeOutcome := w.connCloseFails }
    match w.metaData with
    | Except.error e =>
      finallyClose (Except.error (JavaError.sql e)) (some conn) none none evAcquire
    | Except.ok _ =>
      match user with
      | none =>
        finallyClose (Except.error JavaError.npe) (some conn) none none evAcquire
      | some u =>
        let evQuery := evAcquire ++
          [Event.metaQuery database (toUpperCase u) none ["TABLE"]]
        match w.tablesQuery with
        | Except.error e =>
          finallyClose (Except.error (JavaError.sql e)) (some conn) none none evQuery
        | Except.ok _ =>
          let rs : ResourceHandle := { closeOutcome := w.cursorCloseFails }
          match w.scanTerminal with
          | some e =>
            finallyClose (Except.error (JavaError.sql e)) (some conn) none (some rs) evQuery
          | none =>
            finallyClose (Except.ok (scanLoop tablePattern w.rows))
              (some conn) none (some rs) evQuery

/-- Release invocations among the observable events. -/
def isCloseInvocation : Event → Bool
  | .acquireConn _ _ => false
  | .metaQuery _ _ _ _ => false
  | .closeCursor => true
  | .closeStmt => true
  | .closeConn => true
  | .releaseDiag _ => false

/-- Connection-acquisition events. -/
def isAcquire : Event → Bool
  | .acquireConn _ _ => true
  | .metaQuery _ _ _ _ => false
  | .closeCursor => false
  | .closeStmt => false
  | .closeConn => false
  | .releaseDiag _ => false

/-- Metadata-query events. -/
def isMetaQuery : Event → Bool
  | .acquireConn _ _ => false
  | .metaQuery _ _ _ _ => true
  | .closeCursor => false
  | .closeStmt => false
  | .closeConn => false
  | .releaseDiag _ => false

/-- A metadata query that carries a server-side table-name filter. -/
def hasServerSideFilter : Event → Bool
  | .acquireConn _ _ => false
  | .metaQuery _ _ (some _) _ => true
  | .metaQuery _ _ none _ => false
  | .closeCursor => false
  | .closeStmt => false
  | .closeConn => false
  | .releaseDiag _ => false

/-- Release-failure diagnostics among the observable events. -/
def isDiag : Event → Bool
  | .acquireConn _ _ => false
  | .metaQuery _ _ _ _ => false
  | .closeCursor => false
  | .closeStmt => false
  | .closeConn => false
  | .releaseDiag _ => true

/-- Number of occurrences of one event in a trace. -/
def countEv (ev : Event) (evs : List Event) : Nat :=
  (evs.filter (fun x => x = ev)).length

/-- Modelled from the spec: `BaseDataSourceParamDTO` (RawParams) is not among
the sources; per the spec it carries engine kind plus host, port, database,
user and password. -/
structure RawParams where
  host : String
  port : Nat
  database : String
  user : String
  password : String
deriving DecidableEq, Repr

/-- Modelled from the spec: the MySQL `ConnectionParam` descriptor shape
(`MysqlConnectionParam` as serialized to the persisted JSON form) is not among
the sources; per the spec it is the engine-normalized connection information —
address/URL components, database, user, password. A flat record models the
persisted JSON object losslessly. -/
structure ConnectionDescriptor where
  address : String
  database : String
  jdbcUrl : String
  user : String
  password : String
deriving DecidableEq, Repr

/-- Decimal digit character for a digit value (values `≥ 9` clamp to `'9'`;
only digits `< 10` are ever produced). -/
def digitChar (d : Nat) : Char :=
  if d = 0 then '0' else if d = 1 then '1' else if d = 2 then '2'
  else if d = 3 then '3' else if d = 4 then '4' else if d = 5 then '5'
  else if d = 6 then '6' else if d = 7 then '7' else if d = 8 then '8'
  else '9'

/-- Digit value of a decimal digit character (non-digits clamp to `9`). -/
def charDigit (c : Char) : Nat :=
  if c = '0' then 0 else if c = '1' then 1 else if c = '2' then 2
  else if c = '3' then 3 else if c = '4' then 4 else if c = '5' then 5
  else if c = '6' then 6 else if c = '7' then 7 else if c = '8' then 8
  else 9

/-- Decimal rendering of a natural number, fuelled so that it is structurally
recursive; `fuel ≥ n` always suffices. -/
def toDecimalAux : Nat → Nat → List Char
  | 0, n => [digitChar n]
  | fuel + 1, n =>
    if n < 10 then [digitChar n]
    else toDecimalAux fuel (n / 10) ++ [digitChar (n % 10)]

/-- Decimal rendering of a natural number. -/
def toDecimal (n : Nat) : List Char :=
  toDecimalAux n n

/-- Model of `Integer.parseInt` on a decimal digit list. -/
def parseDecimal (cs : List Char) : Nat :=
  cs.foldl (fun acc c => acc * 10 + charDigit c) 0

/-- Split a character list at the first occurrence of a separator, dropping the
separator — the behaviour `String.split(":")` exhibits on its first two
components. -/
def splitAtFirst (sep : Char) : List Char → List Char × List Char
  | [] => ([], [])
  | c :: cs =>
    if c = sep then ([], cs)
    else
      let p := splitAtFirst sep cs
      (c :: p.1, p.2)

/-- The fixed scheme header of a rendered MySQL address. -/
def jdbcMysqlHead : String := "jdbc:mysql://"

/-- Modelled from the spec: `MysqlDatasourceProcessor.createConnectionParams`
is not among the sources; per the spec `buildDescriptor` normalizes
host/port/database/user/password into the engine's descriptor shape, folding
host and port into the address and rendering the engine URL grammar
`host:port/db`. -/
def createConnectionParams (rp : RawParams) : ConnectionDescriptor :=
  let address := jdbcMysqlHead ++ rp.host ++ ":" ++ String.mk (toDecimal rp.port)
  { address := address
    database := rp.database
    jdbcUrl := address ++ "/" ++ rp.database
    user := rp.user
    password := rp.password }

/-- Modelled from the spec: `MysqlDatasourceProcessor.createDatasourceParamDTO`
is not among the sources; per the spec `buildRawParams` re-parses the persisted
descriptor for re-editing, splitting the address back into host and port. -/
def createDatasourceParamDTO (cd : ConnectionDescriptor) : RawParams :=
  let hostPort := cd.address.data.drop jdbcMysqlHead.data.length
  let p := splitAtFirst ':' hostPort
  { host := String.mk p.1
    port := parseDecimal p.2
    database := cd.database
    user := cd.user
    password := cd.password }

/-- Modelled from the spec: the per-engine `getDatasourceUniqueId`
implementation is not among the sources; per the spec `buildUniqueId` is the
concatenation of engine kind + normalized URL + user, excluding the
password. -/
def getDatasourceUniqueId (cd : ConnectionDescriptor) (dbType : DbType) : String :=
  dbTypeName dbType ++ "@" ++ cd.jdbcUrl ++ "@" ++ cd.user

/-- Whether `pat` occurs at the head of `l`. -/
def headMatches : List Char → List Char → Bool
  | [], _ => true
  | _ :: _, [] => false
  | a :: as, b :: bs => a = b && headMatches as bs

/-- Whether `pat` occurs anywhere in `l`. -/
def containsChars (pat : List Char) : List Char → Bool
  | [] => headMatches pat []
  | c :: cs => headMatches pat (c :: cs) || containsChars pat cs

/-- Model of `String.contains`: substring occurrence. -/
def strContains (s sub : String) : Bool :=
  containsChars sub.data s.data

/-- The event list one guarded release block of `close` produces: nothing for a
null handle, the invocation for a succeeding close, the invocation plus the
diagnostic for a throwing close. -/
def stepEvents (ev : Event) (h : Option ResourceHandle) : List Event :=
  match h with
  | none => []
  | some hd =>
    match hd.closeOutcome with
    | none => [ev]
    | some e => [ev, Event.releaseDiag e]

/-- Regex accepting exactly the given string. -/
def strRe (s : String) : Regex :=
  s.data.foldr (fun c r => Regex.concat (Regex.char c) r) Regex.eps

/-- The pattern of the spec's example: names beginning with `orders` (the
full-match reading of `^orders.*$`). -/
def ordersPat : Regex :=
  Regex.concat (strRe "orders") (Regex.star Regex.anyChar)

/-- A fully successful external world, used by the witnesses. -/
def okWorld : JdbcWorld :=
  { connect := Except.ok ()
    metaData := Except.ok ()
    tablesQuery := Except.ok ()
    rows := ["orders", "orders_archive", "customer_orders"]
    scanTerminal := none
    cursorCloseFails := none
    connCloseFails := none }

/-- An external world whose scan throws after yielding one row and whose cursor
release also fails. -/
def scanFailWorld : JdbcWorld :=
  { connect := Except.ok ()
    metaData := Except.ok ()
    tablesQuery := Except.ok ()
    rows := ["t1"]
    scanTerminal := some "scan failure"
    cursorCloseFails := some "cursor close failure"
    connCloseFails := none }

/-- Raw parameters whose host contains a colon. -/
def rpColonHost : RawParams :=
  { host := "a:b", port := 7, database := "db", user := "u", password := "p" }

/-- Ordinary raw parameters, used by the round-trip witness. -/
def rpPlain : RawParams :=
  { host := "dbhost", port := 3306, database := "reporting", user := "alice", password := "secret" }

/-- A descriptor whose password collides with the key's separator character. -/
def cdSeparatorPassword : ConnectionDescriptor :=
  { address := "jdbc:mysql://h:1"
    database := "db"
    jdbcUrl := "jdbc:mysql://h:1/db"
    user := "alice"
    password := "@" }

/-- Descriptors distinguishing user and URL, used by the unique-id witness. -/
def cdUserA : ConnectionDescriptor :=
  { address := "jdbc:mysql://h:1"
    database := "db"
    jdbcUrl := "jdbc:mysql://h:1/db"
    user := "alice"
    password := "pw1" }

/-- Same non-secret fields as `cdUserA` except the user. -/
def cdUserB : ConnectionDescriptor :=
  { address := "jdbc:mysql://h:1"
    database := "db"
    jdbcUrl := "jdbc:mysql://h:1/db"
    user := "bob"
    password := "pw2" }

/-- Same non-secret fields as `cdUserA` except the URL. -/
def cdUrlB : ConnectionDescriptor :=
  { address := "jdbc:mysql://h:2"
    database := "db"
    jdbcUrl := "jdbc:mysql://h:2/db"
    user := "alice"
    password := "pw1" }

/-- The diagnostics the release of one handle produces. -/
def diagEvents : Option ResourceHandle → List Event
  | some { closeOutcome := some e } => [Event.releaseDiag e]
  | _ => []

theorem closeStep_eval (ev : Event) (h : Option ResourceHandle) :
    closeStep ev h = Except.ok (stepEvents ev h) := by
  rcases h with _ | ⟨_ | e⟩ <;> rfl

theorem close_eval (conn stmt rs : Option ResourceHandle) :
    close conn stmt rs =
      Except.ok (stepEvents Event.closeCursor rs ++ stepEvents Event.closeStmt stmt ++
        stepEvents Event.closeConn conn) := by
  simp [close, closeStep_eval, Except.bind]

theorem finallyClose_fst (p : Except JavaError (List String))
    (conn stmt rs : Option ResourceHandle) (evs : List Event) :
    (finallyClose p conn stmt rs evs).1 = p := by
  simp [finallyClose, close_eval]

theorem finallyClose_snd (p : Except JavaError (List String))
    (conn stmt rs : Option ResourceHandle) (evs : List Event) :
    (finallyClose p conn stmt rs evs).2 =
      evs ++ (stepEvents Event.closeCursor rs ++ stepEvents Event.closeStmt stmt ++
        stepEvents Event.closeConn conn) := by
  simp [finallyClose, close_eval]

theorem scanLoop_eq_filter (pat : Regex) (rows : List String) :
    scanLoop pat rows = rows.filter (fun n => fullMatch pat n) := by
  induction rows with
  | nil => rfl
  | cons h t ih =>
    cases hf : fullMatch pat h <;> simp [scanLoop, hf, ih, List.filter_cons]

theorem countEv_append (ev : Event) (l1 l2 : List Event) :
    countEv ev (l1 ++ l2) = countEv ev l1 + countEv ev l2 := by
  simp [countEv, List.filter_append]

theorem countEv_cons (ev x : Event) (l : List Event) :
    countEv ev (x :: l) = (if x = ev then 1 else 0) + countEv ev l := by
  by_cases h : x = ev <;> simp [countEv, List.filter_cons, h, Nat.add_comm]

/-- Claim C3: for every engine kind in the supported set {MYSQL, POSTGRESQL,
HIVE, SPARK, CLICKHOUSE, ORACLE, SQLSERVER, DB2, PRESTO} the dispatcher
`getDatasourceProcessor` returns (non-null) the fixed processor singleton for
that kind — the same instance on every call, since the dispatch is a pure
function of the kind — and for any value outside the supported set it raises
the unsupported-engine error. -/
theorem getDatasourceProcessor_supported_total :
    getDatasourceProcessor DbType.MYSQL = Except.ok mysqlProcessor ∧
    getDatasourceProcessor DbType.POSTGRESQL = Except.ok postgreSqlProcessor ∧
    getDatasourceProcessor DbType.HIVE = Except.ok hiveProcessor ∧
    getDatasourceProcessor DbType.SPARK = Except.ok sparkProcessor ∧
    getDatasourceProcessor DbType.CLICKHOUSE = Except.ok clickhouseProcessor ∧
    getDatasourceProcessor DbType.ORACLE = Except.ok oracleProcessor ∧
    getDatasourceProcessor DbType.SQLSERVER = Except.ok sqlServerProcessor ∧
    getDatasourceProcessor DbType.DB2 = Except.ok db2PROCESSOR ∧
    getDatasourceProcessor DbType.PRESTO = Except.ok prestoPROCESSOR ∧
    (∀ k : DbType, isSupported k = false →
      getDatasourceProcessor k = Except.error ("datasource type illegal:" ++ dbTypeName k)) := by
  refine ⟨rfl, rfl, rfl, rfl, rfl, rfl, rfl, rfl, rfl, ?_⟩
  intro k hk
  cases k <;> simp_all [isSupported, getDatasourceProcessor, dbTypeName]

/-- Witness for C3: the dispatcher at the concrete supported kind MYSQL and at
the concrete out-of-set kind `OTHER "H2"`. -/
theorem getDatasourceProcessor_supported_total_witness :
    getDatasourceProcessor DbType.MYSQL = Except.ok mysqlProcessor ∧
    isSupported (DbType.OTHER "H2") = false ∧
    getDatasourceProcessor (DbType.OTHER "H2") = Except.error "datasource type illegal:H2" := by
  refine ⟨getDatasourceProcessor_supported_total.1, rfl, ?_⟩
  exact getDatasourceProcessor_supported_total.2.2.2.2.2.2.2.2.2 (DbType.OTHER "H2") rfl

/-- Claim C4: every release call of `close` — the cursor, then the statement,
then the connection, in that order — is attempted exactly when its handle is
non-null, regardless of whether earlier steps or earlier releases failed; a
failing release only records a diagnostic, is never propagated (the helper
always returns normally), and never changes the primary outcome of a
`getMySqlTables` call. -/
theorem close_release_policy :
    (∀ conn stmt rs : Option ResourceHandle, ∃ evs,
      close conn stmt rs = Except.ok evs ∧
      evs.filter isCloseInvocation =
        ((if rs.isSome then [Event.closeCursor] else []) ++
         (if stmt.isSome then [Event.closeStmt] else []) ++
         (if conn.isSome then [Event.closeConn] else [])) ∧
      evs.filter isDiag = (diagEvents rs ++ diagEvents stmt ++ diagEvents conn)) ∧
    (∀ url db : String, ∀ pat : Regex, ∀ user : Option String, ∀ pw : String,
      ∀ a b : Option SqlError, ∀ w : JdbcWorld,
      (getMySqlTables url db pat user pw
        { w with cursorCloseFails := a, connCloseFails := b }).1 =
      (getMySqlTables url db pat user pw w).1) := by
  constructor
  · intro conn stmt rs
    refine ⟨_, close_eval conn stmt rs, ?_, ?_⟩ <;>
      rcases conn with _ | ⟨_ | e1⟩ <;> rcases stmt with _ | ⟨_ | e2⟩ <;>
      rcases rs with _ | ⟨_ | e3⟩ <;>
      simp [stepEvents, diagEvents, isCloseInvocation, isDiag]
  · intro url db pat user pw a b w
    rcases w with ⟨c0, m0, t0, rows0, s0, ccf0, cnf0⟩
    cases c0 <;> cases m0 <;> cases user <;> cases t0 <;> cases s0 <;>
      simp [getMySqlTables, finallyClose_fst]

/-- Claim C8: `close` is total and null-tolerant — for every combination of
null and non-null cursor, statement and connection handles, and even when every
invoked underlying close call throws, it returns normally; a null argument is
skipped (zero invocations of its release hook) without affecting the release of
the other resources, each of which is still invoked exactly once. -/
theorem close_null_tolerant (conn stmt rs : Option ResourceHandle) :
    ∃ evs, close conn stmt rs = Except.ok evs ∧
      countEv Event.closeCursor evs = (if rs.isSome then 1 else 0) ∧
      countEv Event.closeStmt evs = (if stmt.isSome then 1 else 0) ∧
      countEv Event.closeConn evs = (if conn.isSome then 1 else 0) := by
  refine ⟨_, close_eval conn stmt rs, ?_, ?_, ?_⟩ <;>
    rcases conn with _ | ⟨_ | e1⟩ <;> rcases stmt with _ | ⟨_ | e2⟩ <;>
    rcases rs with _ | ⟨_ | e3⟩ <;>
    simp [stepEvents, countEv_append, countEv_cons, countEv]

/-- Claim C2: for every url, database, pattern, user and password, when the
call completes (connection, metadata handle, query and row scan all succeed),
the sequence `getMySqlTables` returns contains exactly those table names of the
metadata scan whose whole name matches the pattern as a full-match regular
expression, in metadata-scan order, and is the empty sequence when no name
fully matches. -/
theorem getMySqlTables_full_match_filter (url db : String) (pat : Regex)
    (u pw : String) (w : JdbcWorld)
    (hc : w.connect = Except.ok ()) (hm : w.metaData = Except.ok ())
    (ht : w.tablesQuery = Except.ok ()) (hs : w.scanTerminal = none) :
    (getMySqlTables url db pat (some u) pw w).1 =
      Except.ok (w.rows.filter (fun n => fullMatch pat n)) ∧
    ((∀ n ∈ w.rows, fullMatch pat n = false) →
      (getMySqlTables url db pat (some u) pw w).1 = Except.ok []) := by
  have h1 : (getMySqlTables url db pat (some u) pw w).1 =
      Except.ok (scanLoop pat w.rows) := by
    rcases w with ⟨c0, m0, t0, rows0, s0, ccf0, cnf0⟩
    subst hc hm ht hs
    simp [getMySqlTables, finallyClose_fst]
  constructor
  · rw [h1, scanLoop_eq_filter]
  · intro hnone
    rw [h1, scanLoop_eq_filter]
    have : w.rows.filter (fun n => fullMatch pat n) = [] := by
      simp only [List.filter_eq_nil_iff]
      intro n hn
      simp [hnone n hn]
    rw [this]

/-- Witness for C2 at the spec's example: pattern `orders.*` (the full-match
reading of `^orders.*$`) over scan rows orders, orders_archive,
customer_orders keeps exactly the fully matching names, in scan order, and
excludes the substring match customer_orders. -/
theorem getMySqlTables_full_match_filter_witness :
    okWorld.connect = Except.ok () ∧
    okWorld.rows = ["orders", "orders_archive", "customer_orders"] ∧
    fullMatch ordersPat "customer_orders" = false ∧
    (getMySqlTables "host:3306" "reporting" ordersPat (some "alice") "secret" okWorld).1 =
      Except.ok ["orders", "orders_archive"] := by
  refine ⟨rfl, rfl, rfl, ?_⟩
  have h := (getMySqlTables_full_match_filter "host:3306" "reporting" ordersPat
    "alice" "secret" okWorld rfl rfl rfl rfl).1
  rw [h]
  rfl

/-- Claim C5: whenever `getMySqlTables` issues its metadata query (the
connection and metadata handle were obtained and the user is non-null), it
issues exactly one query, restricted to catalog `database`, to the schema of
the upper-case-normalized user, and to objects of kind TABLE only — whatever
the later outcomes of the query, the scan and the releases. -/
theorem getMySqlTables_metadata_query_restriction (url db : String) (pat : Regex)
    (u pw : String) (w : JdbcWorld)
    (hc : w.connect = Except.ok ()) (hm : w.metaData = Except.ok ()) :
    (getMySqlTables url db pat (some u) pw w).2.filter isMetaQuery =
      [Event.metaQuery db (toUpperCase u) none ["TABLE"]] := by
  rcases w with ⟨c0, m0, t0, rows0, s0, ccf0, cnf0⟩
  subst hc hm
  cases t0 <;> cases s0 <;> rcases ccf0 with _ | e1 <;> rcases cnf0 with _ | e2 <;>
    simp [getMySqlTables, finallyClose_snd, stepEvents, List.filter_append,
      List.filter_cons, isMetaQuery]

/-- Witness for C5 at a concrete call: the single metadata query of the
example run is restricted to schema `ALICE` (the upper-cased user) and object
kind TABLE. -/
theorem getMySqlTables_metadata_query_restriction_witness :
    okWorld.connect = Except.ok () ∧
    (getMySqlTables "host:3306" "reporting" ordersPat (some "alice") "secret" okWorld).2.filter
      isMetaQuery = [Event.metaQuery "reporting" "ALICE" none ["TABLE"]] := by
  refine ⟨rfl, ?_⟩
  exact getMySqlTables_metadata_query_restriction "host:3306" "reporting" ordersPat
    "alice" "secret" okWorld rfl rfl

/-- Counterexample to claim C1 as stated: at this concrete input the metadata
scan raises after the connection and cursor were obtained and the caller
observes the query error, yet the statement release hook is invoked zero
times, not exactly once — `getMySqlTables` never creates a statement and
passes null for the statement slot of `close`. -/
theorem getMySqlTables_stmt_hook_cex :
    (getMySqlTables "host:3306" "db" ordersPat (some "alice") "pw" scanFailWorld).1 =
      Except.error (JavaError.sql "scan failure") ∧
    countEv Event.closeStmt
      (getMySqlTables "host:3306" "db" ordersPat (some "alice") "pw" scanFailWorld).2 = 0 ∧
    ¬ countEv Event.closeStmt
      (getMySqlTables "host:3306" "db" ordersPat (some "alice") "pw" scanFailWorld).2 = 1 := by
  refine ⟨rfl, rfl, ?_⟩
  intro h
  have h0 : countEv Event.closeStmt
      (getMySqlTables "host:3306" "db" ordersPat (some "alice") "pw" scanFailWorld).2 = 0 := rfl
  rw [h0] at h
  exact absurd h (by decide)

/-- Claim C1 (amended): if the row scan raises an error after the cursor was
obtained, the cursor and connection release hooks are each invoked exactly
once and the statement release hook zero times (no statement exists; `close`
receives null for it), the full release sequence runs — its invocations
appear in the trace in cursor-then-connection order — and the error the caller
observes is the query error, not a release error, whatever the outcomes of the
release calls. -/
theorem getMySqlTables_scan_error_release (url db : String) (pat : Regex)
    (u pw : String) (w : JdbcWorld) (e : SqlError)
    (hc : w.connect = Except.ok ()) (hm : w.metaData = Except.ok ())
    (ht : w.tablesQuery = Except.ok ()) (hs : w.scanTerminal = some e) :
    (getMySqlTables url db pat (some u) pw w).1 = Except.error (JavaError.sql e) ∧
    (getMySqlTables url db pat (some u) pw w).2.filter isCloseInvocation =
      [Event.closeCursor, Event.closeConn] ∧
    countEv Event.closeCursor (getMySqlTables url db pat (some u) pw w).2 = 1 ∧
    countEv Event.closeConn (getMySqlTables url db pat (some u) pw w).2 = 1 ∧
    countEv Event.closeStmt (getMySqlTables url db pat (some u) pw w).2 = 0 := by
  rcases w with ⟨c0, m0, t0, rows0, s0, ccf0, cnf0⟩
  subst hc hm ht hs
  refine ⟨?_, ?_, ?_, ?_, ?_⟩ <;>
    rcases ccf0 with _ | e1 <;> rcases cnf0 with _ | e2 <;>
    simp [getMySqlTables, finallyClose_fst, finallyClose_snd, stepEvents,
      List.filter_append, List.filter_cons, isCloseInvocation,
      countEv_append, countEv_cons, countEv]

/-- Witness for C1 (amended) at a concrete failing scan whose cursor release
also fails: both remaining hooks fire once each and the query error is what
propagates. -/
theorem getMySqlTables_scan_error_release_witness :
    scanFailWorld.scanTerminal = some "scan failure" ∧
    (getMySqlTables "host:3306" "db" ordersPat (some "alice") "pw" scanFailWorld).1 =
      Except.error (JavaError.sql "scan failure") ∧
    (getMySqlTables "host:3306" "db" ordersPat (some "alice") "pw" scanFailWorld).2.filter
      isCloseInvocation = [Event.closeCursor, Event.closeConn] := by
  have h := getMySqlTables_scan_error_release "host:3306" "db" ordersPat "alice" "pw"
    scanFailWorld "scan failure" rfl rfl rfl rfl
  exact ⟨rfl, h.1, h.2.1⟩

/-- Claim C9: `getMySqlTables` validates nothing before I/O — with a null user
the connection is still acquired first, the call raises a null-dereference
error while normalizing the user for the metadata query (so no metadata query
is ever issued), and the acquired connection is released exactly once before
the error propagates. -/
theorem getMySqlTables_null_user_npe (url db : String) (pat : Regex)
    (pw : String) (w : JdbcWorld)
    (hc : w.connect = Except.ok ()) (hm : w.metaData = Except.ok ()) :
    (getMySqlTables url db pat none pw w).1 = Except.error JavaError.npe ∧
    (getMySqlTables url db pat none pw w).2.filter isAcquire =
      [Event.acquireConn DbType.MYSQL
        { jdbcUrl := some url, user := none, password := some pw }] ∧
    (getMySqlTables url db pat none pw w).2.filter isMetaQuery = [] ∧
    (getMySqlTables url db pat none pw w).2.filter isCloseInvocation =
      [Event.closeConn] := by
  rcases w with ⟨c0, m0, t0, rows0, s0, ccf0, cnf0⟩
  subst hc hm
  refine ⟨?_, ?_, ?_, ?_⟩ <;>
    rcases cnf0 with _ | e2 <;>
    simp [getMySqlTables, finallyClose_fst, finallyClose_snd, stepEvents,
      List.filter_append, List.filter_cons, isAcquire, isMetaQuery, isCloseInvocation]

/-- Witness for C9 at a concrete call with a null user: the connection is
acquired, no metadata query is issued, the NPE propagates and the connection
release hook fired once. -/
theorem getMySqlTables_null_user_npe_witness :
    okWorld.connect = Except.ok () ∧
    (getMySqlTables "host:3306" "reporting" ordersPat none "secret" okWorld).1 =
      Except.error JavaError.npe ∧
    (getMySqlTables "host:3306" "reporting" ordersPat none "secret" okWorld).2.filter
      isCloseInvocation = [Event.closeConn] := by
  have h := getMySqlTables_null_user_npe "host:3306" "reporting" ordersPat "secret"
    okWorld rfl rfl
  exact ⟨rfl, h.1, h.2.2.2⟩

/-- Claim C10: every `getMySqlTables` call acquires its connection with engine
kind MYSQL regardless of the url argument (one acquisition, recorded with
exactly the parameters built from the arguments), and no metadata query it
issues carries a server-side table-name filter — the name pattern is applied
only client-side to the returned rows. -/
theorem getMySqlTables_always_mysql_no_server_filter (url db : String)
    (pat : Regex) (user : Option String) (pw : String) (w : JdbcWorld) :
    (getMySqlTables url db pat user pw w).2.filter isAcquire =
      [Event.acquireConn DbType.MYSQL
        { jdbcUrl := some url, user := user, password := some pw }] ∧
    (getMySqlTables url db pat user pw w).2.filter hasServerSideFilter = [] := by
  rcases w with ⟨c0, m0, t0, rows0, s0, ccf0, cnf0⟩
  refine ⟨?_, ?_⟩ <;>
    cases c0 <;> cases m0 <;> cases user <;> cases t0 <;> cases s0 <;>
    rcases ccf0 with _ | e1 <;> rcases cnf0 with _ | e2 <;>
    simp [getMySqlTables, finallyClose_snd, stepEvents,
      List.filter_append, List.filter_cons, isAcquire, hasServerSideFilter]

theorem charDigit_digitChar (d : Nat) (h : d < 10) :
    charDigit (digitChar d) = d := by
  interval_cases d <;> decide

theorem parseDecimal_append_digit (cs : List Char) (c : Char) :
    parseDecimal (cs ++ [c]) = parseDecimal cs * 10 + charDigit c := by
  simp [parseDecimal, List.foldl_append]

theorem parseDecimal_toDecimalAux (fuel : Nat) : ∀ n : Nat, n ≤ fuel →
    parseDecimal (toDecimalAux fuel n) = n := by
  induction fuel with
  | zero =>
    intro n hn
    have h0 : n = 0 := Nat.le_zero.mp hn
    subst h0
    decide
  | succ fuel ih =>
    intro n hn
    by_cases h10 : n < 10
    · rw [show toDecimalAux (fuel + 1) n = [digitChar n] from by
        simp [toDecimalAux, h10]]
      simp [parseDecimal, charDigit_digitChar n h10]
    · rw [show toDecimalAux (fuel + 1) n =
          toDecimalAux fuel (n / 10) ++ [digitChar (n % 10)] from by
        simp [toDecimalAux, h10]]
      rw [parseDecimal_append_digit]
      have hf : n / 10 ≤ fuel := by
        have := Nat.div_lt_self (show 0 < n by omega) (show 1 < 10 by omega)
        omega
      rw [ih (n / 10) hf, charDigit_digitChar (n % 10) (Nat.mod_lt _ (by omega))]
      omega

theorem parseDecimal_toDecimal (n : Nat) : parseDecimal (toDecimal n) = n :=
  parseDecimal_toDecimalAux n n (Nat.le_refl n)

theorem splitAtFirst_append (sep : Char) (xs ys : List Char) (h : sep ∉ xs) :
    splitAtFirst sep (xs ++ sep :: ys) = (xs, ys) := by
  induction xs with
  | nil => simp [splitAtFirst]
  | cons a t ih =>
    have ha : ¬ a = sep := fun e => h (by simp [e])
    simp [splitAtFirst, ha, ih (fun m => h (List.mem_cons_of_mem a m))]

theorem string_append_cancel_left {a b c : String} (h : a ++ b = a ++ c) :
    b = c := by
  have hd := congrArg String.data h
  simp only [String.data_append] at hd
  have h2 := List.append_cancel_left hd
  cases b
  cases c
  exact congrArg String.mk h2

theorem string_append_cancel_right {a b c : String} (h : a ++ c = b ++ c) :
    a = b := by
  have hd := congrArg String.data h
  simp only [String.data_append] at hd
  have h2 := List.append_cancel_right hd
  cases a
  cases b
  exact congrArg String.mk h2

/-- Counterexample to claim C7 as stated: for the RawParams with host `a:b`
and port 7 the round trip reconstructs host `a`, not `a:b` — the host's colon,
folded into the `host:port` address, is indistinguishable from the separator
when the address is split back apart. -/
theorem round_trip_colon_host_cex :
    rpColonHost.host = "a:b" ∧
    (createDatasourceParamDTO (createConnectionParams rpColonHost)).host = "a" ∧
    (createDatasourceParamDTO (createConnectionParams rpColonHost)).host ≠
      rpColonHost.host := by
  refine ⟨rfl, rfl, ?_⟩
  decide

/-- Claim C7 (amended): for every RawParams whose host contains no colon (the
structural constraint validation must enforce, since a colon would be folded
indistinguishably into the `host:port` address), building the descriptor,
persisting it (the persisted JSON form of the flat descriptor record) and
re-parsing it with `createDatasourceParamDTO` reconstructs host, port,
database and user identical to the original RawParams. -/
theorem createDatasourceParamDTO_round_trip (rp : RawParams)
    (h : ':' ∉ rp.host.data) :
    (createDatasourceParamDTO (createConnectionParams rp)).host = rp.host ∧
    (createDatasourceParamDTO (createConnectionParams rp)).port = rp.port ∧
    (createDatasourceParamDTO (createConnectionParams rp)).database = rp.database ∧
    (createDatasourceParamDTO (createConnectionParams rp)).user = rp.user := by
  have haddr : (createConnectionParams rp).address.data =
      jdbcMysqlHead.data ++ (rp.host.data ++ ':' :: toDecimal rp.port) := by
    show (jdbcMysqlHead ++ rp.host ++ ":" ++ String.mk (toDecimal rp.port)).data = _
    simp [String.data_append]
  have hdrop : (createConnectionParams rp).address.data.drop jdbcMysqlHead.data.length =
      rp.host.data ++ ':' :: toDecimal rp.port := by
    rw [haddr, List.drop_left]
  have hsplit : splitAtFirst ':'
      ((createConnectionParams rp).address.data.drop jdbcMysqlHead.data.length) =
      (rp.host.data, toDecimal rp.port) := by
    rw [hdrop]
    exact splitAtFirst_append ':' _ _ h
  refine ⟨?_, ?_, rfl, rfl⟩
  · show String.mk (splitAtFirst ':'
      ((createConnectionParams rp).address.data.drop jdbcMysqlHead.data.length)).1 = rp.host
    rw [hsplit]
  · show parseDecimal (splitAtFirst ':'
      ((createConnectionParams rp).address.data.drop jdbcMysqlHead.data.length)).2 = rp.port
    rw [hsplit]
    exact parseDecimal_toDecimal rp.port

/-- Witness for C7 (amended) at concrete colon-free RawParams: the round trip
reconstructs every non-secret field. -/
theorem createDatasourceParamDTO_round_trip_witness :
    ':' ∉ rpPlain.host.data ∧
    (createDatasourceParamDTO (createConnectionParams rpPlain)).host = "dbhost" ∧
    (createDatasourceParamDTO (createConnectionParams rpPlain)).port = 3306 ∧
    (createDatasourceParamDTO (createConnectionParams rpPlain)).user = "alice" := by
  have h := createDatasourceParamDTO_round_trip rpPlain (by decide)
  exact ⟨by decide, h.1, h.2.1, h.2.2.2⟩

/-- Counterexample to claim C6 as stated: the key built for
`cdSeparatorPassword`, whose password is the separator character `@`, contains
the literal password value as a substring — so "the returned key string never
contains the literal password value" fails, even though the key is built
without the password field. -/
theorem getDatasourceUniqueId_password_substring_cex :
    getDatasourceUniqueId cdSeparatorPassword DbType.MYSQL =
      "MYSQL@jdbc:mysql://h:1/db@alice" ∧
    strContains (getDatasourceUniqueId cdSeparatorPassword DbType.MYSQL)
      cdSeparatorPassword.password = true := by
  exact ⟨rfl, rfl⟩

/-- Claim C6 (amended): the unique id is a pure, deterministic function of the
engine kind and the descriptor's non-secret fields: descriptors agreeing on
URL and user get the same key; the password field never influences the key;
and changing only the user, or only the normalized URL, always changes the
key. (The password is never embedded as a field, but the key string may
incidentally contain a substring equal to the password value.) -/
theorem getDatasourceUniqueId_password_free :
    (∀ cd1 cd2 : ConnectionDescriptor, ∀ d : DbType,
      cd1.jdbcUrl = cd2.jdbcUrl → cd1.user = cd2.user →
      getDatasourceUniqueId cd1 d = getDatasourceUniqueId cd2 d) ∧
    (∀ cd : ConnectionDescriptor, ∀ d : DbType, ∀ pw : String,
      getDatasourceUniqueId { cd with password := pw } d =
        getDatasourceUniqueId cd d) ∧
    (∀ cd1 cd2 : ConnectionDescriptor, ∀ d : DbType,
      cd1.jdbcUrl = cd2.jdbcUrl → cd1.user ≠ cd2.user →
      getDatasourceUniqueId cd1 d ≠ getDatasourceUniqueId cd2 d) ∧
    (∀ cd1 cd2 : ConnectionDescriptor, ∀ d : DbType,
      cd1.user = cd2.user → cd1.jdbcUrl ≠ cd2.jdbcUrl →
      getDatasourceUniqueId cd1 d ≠ getDatasourceUniqueId cd2 d) := by
  refine ⟨?_, ?_, ?_, ?_⟩
  · intro cd1 cd2 d hurl huser
    simp [getDatasourceUniqueId, hurl, huser]
  · intro cd d pw
    simp [getDatasourceUniqueId]
  · intro cd1 cd2 d hurl huser hkey
    apply huser
    rw [getDatasourceUniqueId, getDatasourceUniqueId, hurl] at hkey
    exact string_append_cancel_left hkey
  · intro cd1 cd2 d huser hurl hkey
    apply hurl
    rw [getDatasourceUniqueId, getDatasourceUniqueId, huser] at hkey
    have h1 := string_append_cancel_right hkey
    have h2 := string_append_cancel_right h1
    exact string_append_cancel_left h2

/-- Witness for C6 (amended) at concrete descriptors: a password change leaves
the key unchanged; user and URL changes each change the key. -/
theorem getDatasourceUniqueId_password_free_witness :
    getDatasourceUniqueId { cdUserA with password := "changed" } DbType.MYSQL =
      getDatasourceUniqueId cdUserA DbType.MYSQL ∧
    getDatasourceUniqueId cdUserA DbType.MYSQL ≠
      getDatasourceUniqueId cdUserB DbType.MYSQL ∧
    getDatasourceUniqueId cdUserA DbType.MYSQL ≠
      getDatasourceUniqueId cdUrlB DbType.MYSQL := by
  refine ⟨getDatasourceUniqueId_password_free.2.1 cdUserA DbType.MYSQL "changed", ?_, ?_⟩
  · exact getDatasourceUniqueId_password_free.2.2.1 cdUserA cdUserB DbType.MYSQL
      rfl (by decide)
  · exact getDatasourceUniqueId_password_free.2.2.2 cdUserA cdUrlB DbType.MYSQL
      rfl (by decide)

end DatasourceUtil
